import Mathlib

/-!
# Verification of the bt-esp audio streaming pipeline

Shallow embedding, in Lean 4, of the audio capture → frame → transmit
pipeline of the bt-esp firmware, together with proofs of the behavioural
claims of its specification.

The embedding follows the C sources:
* `main/audio_streaming.c` (bounded transmit queue, network transport task,
  handshake; the file appears concatenated into `wifi_manager.h` in the
  snapshot);
* `main/bt_app_hf.c` (incoming-frame callback: packetizer/sequencer with gap
  detection, microphone signal-level monitor, outbound pacing generator,
  session shutdown);
* `call_simulation.c` (connection orchestrator: the microphone level monitor
  task and its bounded retry policy, plus start/stop idempotence).

Machine integers are modelled as `Nat`/`Int` with explicit reduction
modulo `2^32` / `2^64` where the C code performs unsigned arithmetic.
Effects of the environment (socket outcomes, allocation success, ring
buffer acceptance) are passed in as explicit parameters, so every
definition is executable.
-/

namespace BtEsp

/-! ## Constants from the sources -/

/-- The modulus of `uint32_t` arithmetic, `2^32`. -/
def U32 : Nat := 4294967296

/-- The modulus of `uint64_t` arithmetic, `2^64`. -/
def U64 : Nat := 18446744073709551616

/-- Unsigned 32-bit subtraction `a - b` as performed by C on `uint32_t`. -/
def u32sub (a b : Nat) : Nat := (a % U32 + (U32 - b % U32)) % U32

/-- Unsigned 64-bit subtraction `a - b` as performed by C on `uint64_t`. -/
def u64sub (a b : Nat) : Nat := (a % U64 + (U64 - b % U64)) % U64

/-! ## Bounded transmit queue (`audio_streaming.c`)

`audio_streaming_init` creates the FreeRTOS queue with
`xQueueCreate(50, sizeof(audio_data_t))`, so the hard capacity is 50.
`audio_streaming_send` first pre-checks the occupancy against the literal
high-watermark `50 * 8 / 10` and, when occupancy strictly exceeds it,
evicts up to 5 oldest entries; it then copies the data (`malloc`) and
enqueues with a zero timeout (`xQueueSend(..., 0)`), failing with
`ESP_ERR_NO_MEM` when the queue is full.  The queue is modelled as a
`List` whose head is the oldest element. -/

/-- Queue capacity: `xQueueCreate(50, ...)` in `audio_streaming_init`. -/
def QUEUE_CAPACITY : Nat := 50

/-- High-watermark: the literal `50 * 8 / 10` in `audio_streaming_send`. -/
def QUEUE_WATERMARK : Nat := 50 * 8 / 10

/-- Eviction batch: the loop bound `i < 5` in `audio_streaming_send`. -/
def EVICT_BATCH : Nat := 5

/-- Result of `audio_streaming_send`, after `esp_err_t`:
`ESP_ERR_INVALID_ARG` (guard failed), `ESP_ERR_NO_MEM` (allocation failed
or queue full), `ESP_OK`. -/
inductive SendResult
  | invalidArg
  | noMem
  | ok
  deriving DecidableEq, Repr

/-- Outcome of one `audio_streaming_send` call: the queue afterwards, the
returned error code, and how many old packets the high-watermark pre-check
evicted during this call. -/
structure SendOut (α : Type) where
  queue : List α
  result : SendResult
  evicted : Nat
  deriving DecidableEq, Repr

/-- The function `audio_streaming_send(data, size)` from `audio_streaming.c`.

* `running` is `s_audio_stream.is_running`; `dataOk` stands for
  `data != NULL && size != 0` (all three are checked first and yield
  `ESP_ERR_INVALID_ARG`);
* if the occupancy strictly exceeds `50 * 8 / 10`, the eviction loop
  `for (i = 0; i < 5 && xQueueReceive(...); i++)` removes up to 5 oldest
  entries (`List.drop` removes fewer when the queue is shorter);
* `allocOk` stands for the success of `malloc(size)`; on failure the call
  returns `ESP_ERR_NO_MEM` (the eviction has already happened);
* `xQueueSend(..., 0)` appends at the tail and fails exactly when the
  queue holds `QUEUE_CAPACITY` items. -/
def audioStreamingSend {α : Type} (running dataOk allocOk : Bool)
    (q : List α) (x : α) : SendOut α :=
  if !running || !dataOk then
    { queue := q, result := .invalidArg, evicted := 0 }
  else
    let nEvict := if QUEUE_WATERMARK < q.length then min EVICT_BATCH q.length else 0
    let q1 := q.drop nEvict
    if !allocOk then
      { queue := q1, result := .noMem, evicted := nEvict }
    else if q1.length < QUEUE_CAPACITY then
      { queue := q1 ++ [x], result := .ok, evicted := nEvict }
    else
      { queue := q1, result := .noMem, evicted := nEvict }

/-- One producer-side push request together with the environment facts the
C code consults: whether streaming is running, whether the argument guard
passes, and whether `malloc` succeeds. -/
structure PushReq (α : Type) where
  pkt : α
  running : Bool := true
  dataOk : Bool := true
  allocOk : Bool := true
  deriving DecidableEq, Repr

/-- Fold a sequence of `audio_streaming_send` calls over a queue. -/
def runSends {α : Type} (q : List α) : List (PushReq α) → List α
  | [] => q
  | r :: rs => runSends (audioStreamingSend r.running r.dataOk r.allocOk q r.pkt).queue rs

/-- The per-call eviction counts of a sequence of `audio_streaming_send`
calls (one entry per call, in order). -/
def runSendsEvicted {α : Type} (q : List α) : List (PushReq α) → List Nat
  | [] => []
  | r :: rs =>
      let out := audioStreamingSend r.running r.dataOk r.allocOk q r.pkt
      out.evicted :: runSendsEvicted out.queue rs

/-- All-defaults request list for packets `1, …, n` in insertion order. -/
def plainReqs (n : Nat) : List (PushReq Nat) :=
  (List.range n).map fun i => { pkt := i + 1 }

/-- Consumer-side `xQueueReceive` (`audio_streaming_task`): a pop takes the
head (oldest element) of the queue. -/
def queuePop {α : Type} (q : List α) : Option α × List α :=
  (q.head?, q.tail)

/-! ## Signal level monitor (`bt_app_hf.c`)

The statics `s_mic_level_monitoring`, `s_mic_level_sum` (`int64_t`),
`s_mic_level_samples` (`int`), `s_mic_level_max` (`int16_t`), and the
500 ms report timer.  Frames are modelled as lists of raw integers that
are normalised to `int16_t` range on ingestion (`analyze_mic_level`
reinterprets the byte buffer as an `int16_t` array). -/

/-- Conversion of an integer to the value range of `int16_t` by the
two-complement wrap C performs on narrowing conversions. -/
def toInt16 (n : Int) : Int := (n + 32768) % 65536 - 32768

/-- The per-sample computation `int16_t abs_sample = abs(sample);` in
`analyze_mic_level`: `abs()` works on `int`, so `abs(-32768) = 32768`,
which the narrowing assignment back to `int16_t` wraps to `-32768`. -/
def cAbs16 (sample : Int) : Int := toInt16 |sample|

/-- State of the microphone signal level monitor in `bt_app_hf.c`:
`s_mic_level_monitoring`, `s_mic_level_sum`, `s_mic_level_samples`,
`s_mic_level_max`, and whether `s_mic_level_timer` is running. -/
structure MicState where
  monitoring : Bool
  sum : Int
  samples : Nat
  maxLevel : Int
  timerRunning : Bool
  deriving DecidableEq, Repr

/-- The boot values of the monitor statics. -/
def initMicState : MicState :=
  { monitoring := false, sum := 0, samples := 0, maxLevel := 0, timerRunning := false }

/-- One pass of the sample loop of `analyze_mic_level`: accumulate
`sum += abs_sample`, `samples++`, and the running maximum. -/
def micIngestSample (s : MicState) (raw : Int) : MicState :=
  let absSample := cAbs16 (toInt16 raw)
  { s with
    sum := s.sum + absSample
    samples := s.samples + 1
    maxLevel := if s.maxLevel < absSample then absSample else s.maxLevel }

/-- The function `analyze_mic_level(audio_buffer, size)`: a no-op unless
monitoring is active; otherwise it runs `micIngestSample` over the
`int16_t` samples of the frame. -/
def analyzeMicLevel (st : MicState) (frame : List Int) : MicState :=
  if !st.monitoring then st
  else frame.foldl micIngestSample st

/-- A report emitted by `mic_level_report_timer_cb` (the `ESP_LOGI` line):
the truncating `int64_t` average narrowed to `int16_t`, the running peak,
and the window sample count.  The decibel figure of the log line is
`20*log10f(max/32767)` clamped below at `-60`; since it is computed in
`float`, the clamping step is modelled separately by `clampDbFloor` on an
abstract raw value. -/
structure MicReport where
  average : Int
  maxLevel : Int
  samples : Nat
  deriving DecidableEq, Repr

/-- The clamp `if (db_level < -60.0f) db_level = -60.0f;` from
`mic_level_report_timer_cb`, applied to the raw decibel value
(`20*log10f(max/32767)`, abstracted because it is floating point). -/
def clampDbFloor (x : ℚ) : ℚ := if x < -60 then -60 else x

/-- The periodic reporter `mic_level_report_timer_cb`: a no-op when
monitoring is off or when the window holds zero samples (in particular the
division `s_mic_level_sum / s_mic_level_samples` is never reached with a
zero divisor); otherwise it computes the truncating average, emits the
report, and resets all three accumulators. -/
def micLevelReportTimerCb (st : MicState) : MicState × Option MicReport :=
  if !st.monitoring || st.samples == 0 then (st, none)
  else
    ({ st with sum := 0, samples := 0, maxLevel := 0 },
     some { average := toInt16 (Int.tdiv st.sum st.samples)
            maxLevel := st.maxLevel
            samples := st.samples })

/-- The function `bt_app_start_mic_level_monitoring`: a no-op when already
monitoring; otherwise it clears the accumulators, creates the timer if
needed and starts it with a 500 ms period. -/
def btAppStartMicLevelMonitoring (st : MicState) : MicState :=
  if st.monitoring then st
  else { monitoring := true, sum := 0, samples := 0, maxLevel := 0, timerRunning := true }

/-- The function `bt_app_stop_mic_level_monitoring`: a no-op when not
monitoring; otherwise it clears the flag and stops the timer.  The
accumulators are left as they are. -/
def btAppStopMicLevelMonitoring (st : MicState) : MicState :=
  if !st.monitoring then st
  else { st with monitoring := false, timerRunning := false }

/-! ## Packetizer / sequencer: the incoming frame callback (`bt_app_hf.c`)

`bt_app_hf_incoming_cb(buf, sz)` receives one raw PCM frame per call.  It
updates diagnostics counters, feeds the signal level monitor, and — when
the network streaming transport is connected — wraps the frame in a
`stream_packet_header_t`, performs local gap detection on the emitted
sequence numbers, and pushes the framed packet into the transmit queue via
`audio_streaming_send`.  Frames are modelled as lists of `int16_t`
samples, so the byte size `sz` is twice the list length. -/

/-- The packed `stream_packet_header_t` of `bt_app_hf.c`. -/
structure StreamHeader where
  magic : Nat
  seq : Nat
  timestampUs : Nat
  payloadLen : Nat
  codec : Nat
  deriving DecidableEq, Repr

/-- The constant `STREAM_PACKET_MAGIC 0x48445541u`. -/
def STREAM_PACKET_MAGIC : Nat := 0x48445541

/-- The constant `STREAM_CODEC_CVSD 1`. -/
def STREAM_CODEC_CVSD : Nat := 1

/-- The constant `STREAM_CODEC_MSBC 2`. -/
def STREAM_CODEC_MSBC : Nat := 2

/-- The values of `esp_hf_audio_state_t` tracked in `s_audio_code`. -/
inductive AudioCode
  | disconnected
  | connecting
  | connected
  | connectedMsbc
  deriving DecidableEq, Repr

/-- Whether `s_audio_code` denotes an established audio link
(`ESP_HF_AUDIO_STATE_CONNECTED` or `ESP_HF_AUDIO_STATE_CONNECTED_MSBC`). -/
def AudioCode.isUp : AudioCode → Bool
  | .connected => true
  | .connectedMsbc => true
  | _ => false

/-- A framed packet as placed on the transmit queue: the header followed by
the raw audio payload. -/
structure StreamPacket where
  header : StreamHeader
  payload : List Int
  deriving DecidableEq, Repr

/-- The statics of `bt_app_hf.c` that the incoming frame callback reads and
writes: the packetizer sequence counter `s_stream_seq`, the gap detector
pair `s_prev_header_seq` / `s_lost_seq_estimate` (all `uint32_t`), the
diagnostics counters `s_incoming_cb_counter`, `failed_sends` (a function
static), `s_first_packet_time_us`, the bandwidth accumulator `s_data_num`,
and the signal level monitor state. -/
structure HfState where
  streamSeq : Nat
  prevHeaderSeq : Nat
  lostSeqEstimate : Nat
  incomingCbCounter : Nat
  failedSends : Nat
  firstPacketTimeUs : Nat
  dataNum : Nat
  mic : MicState
  deriving DecidableEq, Repr

/-- The boot values of the `bt_app_hf.c` statics (all zero / false). -/
def initHfState : HfState :=
  { streamSeq := 0, prevHeaderSeq := 0, lostSeqEstimate := 0,
    incomingCbCounter := 0, failedSends := 0, firstPacketTimeUs := 0,
    dataNum := 0, mic := initMicState }

/-- One invocation of `bt_app_hf_incoming_cb` together with the
environment facts the code consults:

* `now` — the value of `esp_timer_get_time()` during this call;
* `bufNull` — whether `buf == NULL`;
* `frame` — the `int16_t` samples of the buffer (`sz = 2 * frame.length`);
* `audioCode` — the current `s_audio_code`;
* `streamingConnected` — the value of `audio_streaming_is_connected()`;
* `running` — `s_audio_stream.is_running` (consulted inside
  `audio_streaming_send`);
* `allocOk` — whether `osi_malloc(packet_size)` succeeds;
* `sendAllocOk` — whether the `malloc` inside `audio_streaming_send`
  succeeds. -/
structure CbInput where
  now : Nat
  bufNull : Bool := false
  frame : List Int
  audioCode : AudioCode := .connected
  streamingConnected : Bool := true
  running : Bool := true
  allocOk : Bool := true
  sendAllocOk : Bool := true
  deriving DecidableEq, Repr

/-- Result of one incoming-callback invocation: the statics afterwards, the
transmit queue afterwards, and the header of the framed packet produced
during the call (`none` when the call returned before building one). -/
structure CbOut where
  state : HfState
  queue : List StreamPacket
  produced : Option StreamHeader
  deriving DecidableEq, Repr

/-- The callback `bt_app_hf_incoming_cb(buf, sz)` from `bt_app_hf.c`.

Control flow, in source order: increment `s_incoming_cb_counter`; latch
`s_first_packet_time_us`; return if `sz == 0 || buf == NULL`; accumulate
`s_data_num += sz`; run `analyze_mic_level`; if the streaming transport is
not connected, increment `failed_sends` and return; build the header
(consuming `s_stream_seq++`), run the gap detector, then allocate the
packet (on OOM: `failed_sends++`, return — the sequence and gap state are
already updated), and push it through `audio_streaming_send`, counting a
failed result in `failed_sends`. -/
def incomingCb (st : HfState) (q : List StreamPacket) (inp : CbInput) : CbOut :=
  let st := { st with
    incomingCbCounter := (st.incomingCbCounter + 1) % U32
    firstPacketTimeUs := if st.firstPacketTimeUs = 0 then inp.now else st.firstPacketTimeUs }
  if inp.frame.length = 0 || inp.bufNull then
    { state := st, queue := q, produced := none }
  else
    let st := { st with
      dataNum := st.dataNum + 2 * inp.frame.length
      mic := analyzeMicLevel st.mic inp.frame }
    if !inp.streamingConnected then
      { state := { st with failedSends := (st.failedSends + 1) % U32 },
        queue := q, produced := none }
    else
      let seqToSend := st.streamSeq
      let header : StreamHeader :=
        { magic := STREAM_PACKET_MAGIC
          seq := seqToSend
          timestampUs := inp.now % U64
          payloadLen := 2 * inp.frame.length % 65536
          codec := if inp.audioCode = .connectedMsbc then STREAM_CODEC_MSBC
                   else STREAM_CODEC_CVSD }
      let st := { st with streamSeq := (st.streamSeq + 1) % U32 }
      let st := { st with
        lostSeqEstimate :=
          if st.prevHeaderSeq ≠ 0 ∧ seqToSend ≠ (st.prevHeaderSeq + 1) % U32 then
            (st.lostSeqEstimate + u32sub seqToSend ((st.prevHeaderSeq + 1) % U32)) % U32
          else st.lostSeqEstimate }
      let st := { st with prevHeaderSeq := seqToSend }
      if !inp.allocOk then
        { state := { st with failedSends := (st.failedSends + 1) % U32 },
          queue := q, produced := some header }
      else
        let out := audioStreamingSend inp.running true inp.sendAllocOk q
          { header := header, payload := inp.frame }
        { state :=
            { st with
              failedSends :=
                if out.result ≠ .ok then (st.failedSends + 1) % U32 else st.failedSends }
          queue := out.queue
          produced := some header }

/-- Whether a callback invocation reaches the packet building stage (the
callback produces a header exactly on these inputs). -/
def CbInput.producing (inp : CbInput) : Bool :=
  inp.frame.length != 0 && !inp.bufNull && inp.streamingConnected

/-- Result of running the callback over a whole input trace: final statics,
final queue, and all produced headers in order. -/
structure SessionOut where
  state : HfState
  queue : List StreamPacket
  headers : List StreamHeader
  deriving DecidableEq, Repr

/-- Run `bt_app_hf_incoming_cb` over a list of invocations. -/
def runSession (st : HfState) (q : List StreamPacket) : List CbInput → SessionOut
  | [] => { state := st, queue := q, headers := [] }
  | inp :: rest =>
      let out := incomingCb st q inp
      let tail := runSession out.state out.queue rest
      { state := tail.state, queue := tail.queue,
        headers := out.produced.toList ++ tail.headers }

/-- The number of producing invocations in a trace. -/
def countProducing (ins : List CbInput) : Nat :=
  (ins.filter CbInput.producing).length

/-- The session shutdown `bt_app_send_data_shut_down` restricted to the
statics modelled in `HfState`: it resets `s_stream_seq` to 0 for the next
session and stops microphone level monitoring.  (The rest of the function
tears down the pacing timer, task, semaphore, and ring buffer; the
gap-detector statics `s_prev_header_seq` and `s_lost_seq_estimate` are not
touched.) -/
def sendDataShutDown (st : HfState) : HfState :=
  { st with streamSeq := 0, mic := btAppStopMicLevelMonitoring st.mic }

/-! ## Outbound pacing generator (`bt_app_hf.c`)

A periodic `esp_timer` fires every `PCM_GENERATOR_TICK_US` (4000 µs) and
gives a binary semaphore; `bt_app_send_data_task` wakes on it and decides
whether to synthesize one all-zero (silence) frame into the ring buffer.
One semaphore wake-up is one tick of the model. -/

/-- The constant `PCM_BLOCK_DURATION_US (7500)`. -/
def PCM_BLOCK_DURATION_US : Nat := 7500

/-- The constant `PCM_GENERATOR_TICK_US (4000)`. -/
def PCM_GENERATOR_TICK_US : Nat := 4000

/-- The constant `WBS_PCM_INPUT_DATA_SIZE` (240 bytes: 16 kHz × 7.5 ms ×
2 bytes per sample). -/
def WBS_PCM_INPUT_DATA_SIZE : Nat := 16 * PCM_BLOCK_DURATION_US / 1000 * 2

/-- The constant `PCM_INPUT_DATA_SIZE` (120 bytes: 8 kHz × 7.5 ms ×
2 bytes per sample). -/
def PCM_INPUT_DATA_SIZE : Nat := 8 * PCM_BLOCK_DURATION_US / 1000 * 2

/-- The statics of `bt_app_send_data_task`: the pacing gate time
`last_frame_time` (`uint64_t`, 0 until the first gate pass), the tick
counter `send_counter`, the failure counter `consecutive_failures`, the
time of the last successful ring-buffer write, and the global
`s_last_enter_time`. -/
structure PacingState where
  lastFrameTime : Nat
  sendCounter : Nat
  consecutiveFailures : Nat
  lastSuccessfulSend : Nat
  lastEnterTime : Nat
  deriving DecidableEq, Repr

/-- The initial values of the pacing statics when the task starts. -/
def initPacingState : PacingState :=
  { lastFrameTime := 0, sendCounter := 0, consecutiveFailures := 0,
    lastSuccessfulSend := 0, lastEnterTime := 0 }

/-- Environment of one pacing tick: the codec state `s_audio_code`, whether
`osi_malloc(frame_data_num)` succeeds, whether `xRingbufferSend` succeeds,
and the ring-buffer fill level that `vRingbufferGetInfo` reports after the
write attempt. -/
structure TickEnv where
  code : AudioCode := .connected
  allocOk : Bool := true
  rbOk : Bool := true
  itemSizeAfter : Nat := 0
  deriving DecidableEq, Repr

/-- Result of one tick: the new statics, whether one silence frame was
written into the ring buffer (the written payload is
`memset(buf, 0, frame_data_num)`, i.e. all-zero), and whether
`esp_hf_ag_outgoing_data_ready()` was signalled. -/
structure TickOut where
  state : PacingState
  emitted : Bool
  dataReady : Bool
  deriving DecidableEq, Repr

/-- One loop iteration of `bt_app_send_data_task` after a successful
`xSemaphoreTake`, at time `now` (the value of `esp_timer_get_time()`).

In source order: `send_counter++`; skip unless the audio link is up; the
pacing gate: skip when `last_frame_time != 0` and less than
`PCM_BLOCK_DURATION_US` (7500 µs, for both codecs) has passed since
`last_frame_time`; on a gate pass record `last_frame_time = now` (before
any emission attempt); with more than 3 consecutive failures skip every
second tick; allocate and write one all-zero frame of the codec frame size
into the ring buffer; finally signal the frame sink when the buffer holds
at least one frame but less than three frames worth of data. -/
def sendDataTick (st : PacingState) (now : Nat) (env : TickEnv) : TickOut :=
  let st := { st with sendCounter := st.sendCounter + 1 }
  if !env.code.isUp then
    { state := st, emitted := false, dataReady := false }
  else if st.lastFrameTime ≠ 0 ∧ u64sub now st.lastFrameTime < PCM_BLOCK_DURATION_US then
    { state := st, emitted := false, dataReady := false }
  else
    let st := { st with lastFrameTime := now % U64, lastEnterTime := now % U64 }
    if 3 < st.consecutiveFailures ∧ st.sendCounter % 2 = 0 then
      { state := { st with consecutiveFailures := 0 }, emitted := false, dataReady := false }
    else if !env.allocOk then
      { state := { st with consecutiveFailures := st.consecutiveFailures + 1 },
        emitted := false, dataReady := false }
    else
      let requiredSize :=
        if env.code = .connectedMsbc then WBS_PCM_INPUT_DATA_SIZE else PCM_INPUT_DATA_SIZE
      let st :=
        if env.rbOk then
          { st with consecutiveFailures := 0, lastSuccessfulSend := now % U64 }
        else { st with consecutiveFailures := st.consecutiveFailures + 1 }
      { state := st
        emitted := env.rbOk
        dataReady := requiredSize ≤ env.itemSizeAfter ∧ env.itemSizeAfter < requiredSize * 3 }

/-- Run the pacing task over consecutive timer ticks: tick `k` of the list
runs at time `t + PCM_GENERATOR_TICK_US * k` (the timer period is 4000 µs).
Returns the final statics and the per-tick emission flags. -/
def runTicks (st : PacingState) (t : Nat) : List TickEnv → PacingState × List Bool
  | [] => (st, [])
  | env :: rest =>
      let out := sendDataTick st t env
      let tail := runTicks out.state (t + PCM_GENERATOR_TICK_US) rest
      (tail.1, out.emitted :: tail.2)

/-! ## Connection orchestrator (`call_simulation.c`)

The monitor task `microphone_level_monitor_task` polls the audio link
state `g_audio_connected` every 500 ms, tracks stability, and issues
direct audio-connect requests (`esp_hf_ag_audio_connect`) with a bounded
retry budget. -/

/-- The locals of `microphone_level_monitor_task`: the poll counter, the
retry budget `audio_connection_attempts`, the transition tracker
`was_connected`, and `stable_connection_counter`. -/
structure MonitorState where
  counter : Nat
  attempts : Nat
  wasConnected : Bool
  stable : Nat
  deriving DecidableEq, Repr

/-- Values of the monitor locals when the task starts. -/
def initMonitorState : MonitorState :=
  { counter := 0, attempts := 0, wasConnected := false, stable := 0 }

/-- One poll iteration of `microphone_level_monitor_task`, with `audio` the
sampled value of `g_audio_connected`.  Returns the new locals and whether
this iteration issued `esp_hf_ag_audio_connect` (a direct audio-connect
request).

In source order: the stability block (on a transition into connected reset
`audio_connection_attempts` to 0; while disconnected zero the stability
counter); then, while disconnected, issue a connect request exactly when
`counter % 15 == 0 && audio_connection_attempts < 3`, incrementing the
budget; finally `counter++` and the 500 ms sleep. -/
def monitorStep (st : MonitorState) (audio : Bool) : MonitorState × Bool :=
  let st :=
    if audio then
      { st with
        stable := st.stable + 1
        attempts := if !st.wasConnected then 0 else st.attempts
        wasConnected := true }
    else
      { st with wasConnected := false, stable := 0 }
  if !audio ∧ st.counter % 15 = 0 ∧ st.attempts < 3 then
    ({ st with attempts := st.attempts + 1, counter := st.counter + 1 }, true)
  else
    ({ st with counter := st.counter + 1 }, false)

/-- Run the monitor loop over a trace of sampled audio link states.
Returns the final locals and the per-iteration connect-request flags. -/
def runMonitor (st : MonitorState) : List Bool → MonitorState × List Bool
  | [] => (st, [])
  | audio :: rest =>
      let step := monitorStep st audio
      let tail := runMonitor step.1 rest
      (tail.1, step.2 :: tail.2)

/-! ## Network transport task (`audio_streaming.c`)

`audio_streaming_task` owns the outbound TCP connection: it connects with
a 5 s retry backoff, sends the textual handshake once per connection, then
drains the transmit queue. -/

/-- The stream configuration `audio_stream_config_t` (string/numeric fields
as filled in by `bt_app_audio_streaming_init`). -/
structure StreamConfig where
  serverIp : String
  serverPort : Nat
  bufferSize : Nat
  sampleRate : Nat
  channels : Nat
  bitsPerSample : Nat
  deriving DecidableEq, Repr

/-- The handshake text block built by `snprintf` in `connect_to_server`:
`"AUDIO_STREAM\nsample_rate=%u\nchannels=%u\nbits_per_sample=%u\ncodec=%s\n\n"`,
where the codec label is `MSBC` exactly when the configured sample rate is
16000 and `CVSD` otherwise. -/
def handshakeHeader (c : StreamConfig) : String :=
  "AUDIO_STREAM\n" ++
  "sample_rate=" ++ toString c.sampleRate ++ "\n" ++
  "channels=" ++ toString c.channels ++ "\n" ++
  "bits_per_sample=" ++ toString c.bitsPerSample ++ "\n" ++
  "codec=" ++ (if c.sampleRate = 16000 then "MSBC" else "CVSD") ++ "\n" ++
  "\n"

/-- Modelled from the spec (§6 Wire framing protocol): the handshake grammar
`AUDIO_STREAM\nsample_rate=<u32>\nchannels=<u8>\nbits_per_sample=<u8>\ncodec=<CVSD|MSBC>\n\n`.
Used only to compare the code-built block against the specified form. -/
def specHandshakeBlock (sampleRate channels bitsPerSample : Nat) (s : String) : Prop :=
  ∃ codecLabel, (codecLabel = "CVSD" ∨ codecLabel = "MSBC") ∧
    s = "AUDIO_STREAM\n" ++
        "sample_rate=" ++ toString sampleRate ++ "\n" ++
        "channels=" ++ toString channels ++ "\n" ++
        "bits_per_sample=" ++ toString bitsPerSample ++ "\n" ++
        "codec=" ++ codecLabel ++ "\n" ++
        "\n"

/-- Environment outcomes consulted by `connect_to_server`: whether
`socket()` succeeds, whether `inet_pton` accepts the configured address,
whether `connect()` succeeds, and whether `send(header)` returns
non-negative. -/
structure ConnectEnv where
  socketOk : Bool := true
  ipValid : Bool := true
  connectOk : Bool := true
  headerSendOk : Bool := true
  deriving DecidableEq, Repr

/-- The function `connect_to_server` from `audio_streaming.c`: on every
failure path the socket is closed and the function fails with
`is_connected` left false; on the success path the handshake block is the
single text block handed to `send`, after which `is_connected` becomes
true.  Returns whether the connection was established and the list of
text blocks successfully transmitted. -/
def connectToServer (env : ConnectEnv) (c : StreamConfig) : Bool × List String :=
  if !env.socketOk then (false, [])
  else if !env.ipValid then (false, [])
  else if !env.connectOk then (false, [])
  else if !env.headerSendOk then (false, [])
  else (true, [handshakeHeader c])

/-- The module state `s_audio_stream` of `audio_streaming.c` (the socket
descriptor is represented by `isConnected`; `taskActive` stands for
`stream_task_handle != NULL`). -/
structure StreamState where
  isRunning : Bool
  isConnected : Bool
  queue : List StreamPacket
  taskActive : Bool
  deriving DecidableEq, Repr

/-- Observable actions of one `audio_streaming_task` loop iteration. -/
inductive TaskEvent
  | handshake (s : String)
  | packetSent (p : StreamPacket)
  | delayMs (n : Nat)
  | popTimeout
  deriving DecidableEq, Repr

/-- Environment of one `audio_streaming_task` loop iteration: the
`connect_to_server` outcomes, whether `xQueueReceive` with its 1 s timeout
returned an item (possible only when the queue is non-empty), and whether
`send(packet)` returned non-negative (a non-negative partial send is
logged but does not disconnect). -/
structure TaskEnv where
  conn : ConnectEnv := {}
  popOk : Bool := true
  sendOk : Bool := true
  deriving DecidableEq, Repr

/-- One iteration of the `while (s_audio_stream.is_running)` loop of
`audio_streaming_task`.

When disconnected, attempt `connect_to_server`; on failure wait 5000 ms
(`vTaskDelay(pdMS_TO_TICKS(5000)); continue;`); on success fall through,
in the same iteration, to the queue drain.  When connected, pop the oldest
packet with a 1 s timeout and send it; a negative `send` result calls
`disconnect_from_server`. -/
def streamTaskIter (c : StreamConfig) (st : StreamState) (env : TaskEnv) :
    StreamState × List TaskEvent :=
  if !st.isRunning then (st, [])
  else
    let conn :=
      if st.isConnected then (st, [])
      else
        match connectToServer env.conn c with
        | (true, sent) => ({ st with isConnected := true }, sent.map .handshake)
        | (false, _) => (st, [.delayMs 5000])
    let st := conn.1
    if !st.isConnected then conn
    else
      match st.queue, env.popOk with
      | p :: rest, true =>
          if env.sendOk then
            ({ st with queue := rest }, conn.2 ++ [.packetSent p])
          else
            ({ st with queue := rest, isConnected := false }, conn.2)
      | _, _ => (st, conn.2 ++ [.popTimeout])

/-- Run the transport task over a trace of iteration environments,
concatenating the observable events. -/
def runStreamTask (c : StreamConfig) (st : StreamState) :
    List TaskEnv → StreamState × List TaskEvent
  | [] => (st, [])
  | env :: rest =>
      let step := streamTaskIter c st env
      let tail := runStreamTask c step.1 rest
      (tail.1, step.2 ++ tail.2)

/-- Whether an observable event is the textual handshake. -/
def isHandshakeEvent : TaskEvent → Bool
  | .handshake _ => true
  | _ => false

/-- Whether an event trace contains no framed-packet send before its first
handshake (scanning left to right). -/
def noPacketBeforeHandshake : List TaskEvent → Bool
  | [] => true
  | .handshake _ :: _ => true
  | .packetSent _ :: _ => false
  | _ :: rest => noPacketBeforeHandshake rest

/-- Error codes (`esp_err_t`) returned by the stop operations. -/
inductive EspErr
  | ok
  | errInvalidState
  deriving DecidableEq, Repr

/-- The function `audio_streaming_stop` from `audio_streaming.c`: when not
running it returns `ESP_OK` immediately without touching any state;
otherwise it clears the running flag, deletes the task, disconnects the
socket, and drains (frees) every queued packet. -/
def audioStreamingStop (st : StreamState) : StreamState × EspErr :=
  if !st.isRunning then (st, .ok)
  else
    ({ st with isRunning := false, taskActive := false, isConnected := false, queue := [] },
     .ok)

/-- The statics of `call_simulation.c`: `s_call_active`,
`s_mic_monitoring_active`, and whether the monitor task handle is set. -/
structure CallSimState where
  callActive : Bool
  micMonitoringActive : Bool
  monitorTaskActive : Bool
  deriving DecidableEq, Repr

/-- The function `stop_microphone_level_monitoring` from
`call_simulation.c`: when monitoring is not active it returns
`ESP_ERR_INVALID_STATE` without touching any state; otherwise it clears
the flag and waits for the monitor task to exit (the task clears its own
handle). -/
def stopMicrophoneLevelMonitoring (st : CallSimState) : CallSimState × EspErr :=
  if !st.micMonitoringActive then (st, .errInvalidState)
  else ({ st with micMonitoringActive := false, monitorTaskActive := false }, .ok)

/-! ## Concrete scenario inputs used by the claim theorems -/

/-- A nominal incoming-frame invocation at time `t`: valid buffer, one
sample, CVSD link, transport connected, all allocations succeed. -/
def cbFrameAt (t : Nat) : CbInput := { now := t, frame := [0] }

/-- First producer session of the gap-detector scenario: three frames
arrive from a fresh boot. -/
def gapFirstSession : SessionOut :=
  runSession initHfState [] [cbFrameAt 10, cbFrameAt 20, cbFrameAt 30]

/-- Second producer session of the gap-detector scenario: one frame after
the session reset `bt_app_send_data_shut_down`. -/
def gapSecondSession : SessionOut :=
  runSession (sendDataShutDown gapFirstSession.state) gapFirstSession.queue [cbFrameAt 100]

/-! # Theorems

Helper lemmas first, then one theorem per claim (with a witness where the
claim theorem carries hypotheses). -/

/-! ## Helper lemmas: modular arithmetic -/

theorem u32sub_eq_of_le {a b : Nat} (ha : a < U32) (hb : b ≤ a) :
    u32sub a b = a - b := by
  unfold u32sub
  rw [Nat.mod_eq_of_lt ha, Nat.mod_eq_of_lt (Nat.lt_of_le_of_lt hb ha)]
  have h1 : a + (U32 - b) = U32 + (a - b) := by omega
  rw [h1, Nat.add_mod_left, Nat.mod_eq_of_lt (by omega)]

theorem u32sub_zero_left {b : Nat} (hb : 0 < b) (hb' : b < U32) :
    u32sub 0 b = U32 - b := by
  unfold u32sub
  rw [Nat.mod_eq_of_lt (show (0 : Nat) < U32 by norm_num [U32]),
    Nat.mod_eq_of_lt hb']
  rw [Nat.zero_add, Nat.mod_eq_of_lt (by omega)]

theorem u64sub_eq_of_le {a b : Nat} (ha : a < U64) (hb : b ≤ a) :
    u64sub a b = a - b := by
  unfold u64sub
  rw [Nat.mod_eq_of_lt ha, Nat.mod_eq_of_lt (Nat.lt_of_le_of_lt hb ha)]
  have h1 : a + (U64 - b) = U64 + (a - b) := by omega
  rw [h1, Nat.add_mod_left, Nat.mod_eq_of_lt (by omega)]

/-! ## Helper lemmas: the transmit queue -/

theorem audioStreamingSend_length_le {α : Type} (r d a : Bool) (q : List α) (x : α)
    (h : q.length ≤ QUEUE_CAPACITY) :
    (audioStreamingSend r d a q x).queue.length ≤ QUEUE_CAPACITY := by
  unfold audioStreamingSend
  dsimp only
  split_ifs <;> dsimp only <;>
    (try simp only [List.length_drop, List.length_append, List.length_cons,
      List.length_nil] at *) <;>
    omega

theorem audioStreamingSend_sublist {α : Type} (r d a : Bool) (q : List α) (x : α) :
    ((audioStreamingSend r d a q x).queue).Sublist (q ++ [x]) := by
  unfold audioStreamingSend
  dsimp only
  split_ifs <;> dsimp only <;>
    first
      | exact List.sublist_append_left q [x]
      | exact (List.drop_sublist _ q).trans (List.sublist_append_left q [x])
      | exact List.Sublist.append_right (List.drop_sublist _ q) [x]

theorem runSends_length_le {α : Type} :
    ∀ (reqs : List (PushReq α)) (q : List α), q.length ≤ QUEUE_CAPACITY →
      (runSends q reqs).length ≤ QUEUE_CAPACITY
  | [], _, h => h
  | r :: rs, q, h =>
      runSends_length_le rs _ (audioStreamingSend_length_le r.running r.dataOk r.allocOk q r.pkt h)

theorem runSends_sublist {α : Type} :
    ∀ (reqs : List (PushReq α)) (q : List α),
      (runSends q reqs).Sublist (q ++ reqs.map PushReq.pkt)
  | [], q => by simp [runSends]
  | r :: rs, q => by
      have h1 := runSends_sublist rs (audioStreamingSend r.running r.dataOk r.allocOk q r.pkt).queue
      have h2 := List.Sublist.append_right
        (audioStreamingSend_sublist r.running r.dataOk r.allocOk q r.pkt)
        (rs.map PushReq.pkt)
      simp only [runSends, List.map_cons]
      have h3 : (q ++ [r.pkt]) ++ rs.map PushReq.pkt = q ++ r.pkt :: rs.map PushReq.pkt := by
        simp
      exact h1.trans (h3 ▸ h2)

/-! ## Claims C1 and C3: transmit queue scenario and invariants -/

/-- C1 counterexample.  The claim asserts that with capacity 50 and
high-watermark 40 the eviction batch fires when the 41st packet is pushed.
It does not: the precheck `queue_length > 40` is strict, so after pushing
packets 1 … 41 from an empty queue no eviction has occurred at all (all 41
per-push eviction counts are 0) and the queue holds all 41 packets. -/
theorem claim_C1_counterexample :
    runSendsEvicted ([] : List Nat) (plainReqs 41) = List.replicate 41 0 ∧
    runSends ([] : List Nat) (plainReqs 41) = (List.range 41).map (· + 1) := by
  constructor <;> decide

/-- C1 (amended).  Pushing 45 packets in order through
`audio_streaming_send` into the initially empty queue (capacity 50,
high-watermark 40) triggers exactly one eviction batch of the 5 oldest
packets; the eviction occurs when the 42nd packet is pushed (the first
push that sees occupancy 41 > 40), and afterwards the queue holds exactly
the packets with original insertion indices 6 … 45 in FIFO order. -/
theorem claim_C1 :
    runSendsEvicted ([] : List Nat) (plainReqs 45) =
      List.replicate 41 0 ++ 5 :: List.replicate 3 0 ∧
    runSends ([] : List Nat) (plainReqs 45) = (List.range 40).map (· + 6) := by
  constructor <;> decide

/-! ## Helper lemmas: the incoming frame callback -/

theorem incomingCb_not_producing (st : HfState) (q : List StreamPacket) (inp : CbInput)
    (h : inp.producing = false) :
    (incomingCb st q inp).produced = none ∧
    (incomingCb st q inp).queue = q ∧
    (incomingCb st q inp).state.streamSeq = st.streamSeq ∧
    (incomingCb st q inp).state.prevHeaderSeq = st.prevHeaderSeq ∧
    (incomingCb st q inp).state.lostSeqEstimate = st.lostSeqEstimate := by
  by_cases h1 : inp.frame.length = 0 <;> by_cases h2 : inp.bufNull <;>
    by_cases h3 : inp.streamingConnected <;>
    simp [incomingCb, CbInput.producing, h1, h2, h3] at h ⊢

theorem incomingCb_producing (st : HfState) (q : List StreamPacket) (inp : CbInput)
    (h : inp.producing = true) :
    (incomingCb st q inp).produced = some
      { magic := STREAM_PACKET_MAGIC
        seq := st.streamSeq
        timestampUs := inp.now % U64
        payloadLen := 2 * inp.frame.length % 65536
        codec := if inp.audioCode = .connectedMsbc then STREAM_CODEC_MSBC
                 else STREAM_CODEC_CVSD } ∧
    (incomingCb st q inp).state.streamSeq = (st.streamSeq + 1) % U32 ∧
    (incomingCb st q inp).state.prevHeaderSeq = st.streamSeq ∧
    (incomingCb st q inp).state.lostSeqEstimate =
      (if st.prevHeaderSeq ≠ 0 ∧ st.streamSeq ≠ (st.prevHeaderSeq + 1) % U32 then
        (st.lostSeqEstimate + u32sub st.streamSeq ((st.prevHeaderSeq + 1) % U32)) % U32
       else st.lostSeqEstimate) := by
  have h1 : inp.frame.length ≠ 0 := by
    intro hc
    simp [CbInput.producing, hc] at h
  have h2 : inp.bufNull = false := by
    rcases Bool.eq_false_or_eq_true inp.bufNull with hb | hb
    · simp [CbInput.producing, hb] at h
    · exact hb
  have h3 : inp.streamingConnected = true := by
    rcases Bool.eq_false_or_eq_true inp.streamingConnected with hb | hb
    · exact hb
    · simp [CbInput.producing, hb] at h
  by_cases h4 : inp.allocOk <;>
    simp [incomingCb, h1, h2, h3, h4]

theorem runSession_headers_seq :
    ∀ (ins : List CbInput) (st : HfState) (q : List StreamPacket), st.streamSeq < U32 →
      (runSession st q ins).headers.map StreamHeader.seq =
        (List.range (countProducing ins)).map (fun i => (st.streamSeq + i) % U32)
  | [], st, q, _ => by simp [runSession, countProducing]
  | inp :: rest, st, q, h => by
      rcases Bool.eq_false_or_eq_true inp.producing with hp | hp
      · obtain ⟨hprod, hseq, _, _⟩ := incomingCb_producing st q inp hp
        have hlt : (incomingCb st q inp).state.streamSeq < U32 := by
          rw [hseq]
          exact Nat.mod_lt _ (by norm_num [U32])
        have ih := runSession_headers_seq rest (incomingCb st q inp).state
          (incomingCb st q inp).queue hlt
        have hcnt : countProducing (inp :: rest) = countProducing rest + 1 := by
          simp [countProducing, List.filter_cons, hp]
        simp only [runSession, List.map_append, hprod, ih, hseq, hcnt,
          Option.toList_some, List.map_cons, List.map_nil,
          List.range_succ_eq_map, List.map_map, List.singleton_append]
        congr 1
        · rw [Nat.add_zero, Nat.mod_eq_of_lt h]
        refine List.map_congr_left fun i _ => ?_
        show ((st.streamSeq + 1) % U32 + i) % U32 = (st.streamSeq + (i + 1)) % U32
        rw [Nat.mod_add_mod]
        congr 1
        omega
      · obtain ⟨hprod, _, hseq, _, _⟩ := incomingCb_not_producing st q inp hp
        have ih := runSession_headers_seq rest (incomingCb st q inp).state
          (incomingCb st q inp).queue (by rw [hseq]; exact h)
        have hcnt : countProducing (inp :: rest) = countProducing rest := by
          simp [countProducing, List.filter_cons, hp]
        simp only [runSession, List.map_append, hprod, Option.toList_none,
          List.nil_append, ih, hseq, hcnt]

theorem runSession_lost_of_inv :
    ∀ (ins : List CbInput) (st : HfState) (q : List StreamPacket),
      st.streamSeq < U32 → st.prevHeaderSeq = u32sub st.streamSeq 1 →
      (runSession st q ins).state.lostSeqEstimate = st.lostSeqEstimate
  | [], _, _, _, _ => rfl
  | inp :: rest, st, q, h1, h2 => by
      rcases Bool.eq_false_or_eq_true inp.producing with hp | hp
      · obtain ⟨_, hseq, hprev, hlost⟩ := incomingCb_producing st q inp hp
        have hU : U32 = 4294967296 := rfl
        have hguard : st.streamSeq = (st.prevHeaderSeq + 1) % U32 := by
          rw [h2]
          unfold u32sub
          rw [hU] at h1 ⊢
          omega
        have hlost' : (incomingCb st q inp).state.lostSeqEstimate = st.lostSeqEstimate := by
          rw [hlost, if_neg]
          rintro ⟨_, hne⟩
          exact hne hguard
        have h1' : (incomingCb st q inp).state.streamSeq < U32 := by
          rw [hseq]
          exact Nat.mod_lt _ (by norm_num [U32])
        have h2' : (incomingCb st q inp).state.prevHeaderSeq =
            u32sub (incomingCb st q inp).state.streamSeq 1 := by
          rw [hprev, hseq]
          unfold u32sub
          rw [hU] at h1 ⊢
          omega
        have ih := runSession_lost_of_inv rest (incomingCb st q inp).state
          (incomingCb st q inp).queue h1' h2'
        show (runSession (incomingCb st q inp).state (incomingCb st q inp).queue
          rest).state.lostSeqEstimate = st.lostSeqEstimate
        rw [ih, hlost']
      · obtain ⟨_, _, hseq, hprev, hlost⟩ := incomingCb_not_producing st q inp hp
        have ih := runSession_lost_of_inv rest (incomingCb st q inp).state
          (incomingCb st q inp).queue (by rw [hseq]; exact h1)
          (by rw [hseq, hprev]; exact h2)
        show (runSession (incomingCb st q inp).state (incomingCb st q inp).queue
          rest).state.lostSeqEstimate = st.lostSeqEstimate
        rw [ih, hlost]

theorem runSession_lost_from_reset :
    ∀ (ins : List CbInput) (st : HfState) (q : List StreamPacket),
      st.streamSeq = 0 → st.prevHeaderSeq < U32 → st.lostSeqEstimate < U32 →
      (runSession st q ins).state.lostSeqEstimate =
        (if 1 ≤ countProducing ins ∧ st.prevHeaderSeq ≠ 0 ∧ st.prevHeaderSeq + 1 ≠ U32 then
          (st.lostSeqEstimate + (U32 - (st.prevHeaderSeq + 1))) % U32
        else st.lostSeqEstimate)
  | [], st, q, h0, hp, hl => by
      simp [runSession, countProducing]
  | inp :: rest, st, q, h0, hp, hl => by
      have hU : U32 = 4294967296 := rfl
      rcases Bool.eq_false_or_eq_true inp.producing with hprod | hprod
      · obtain ⟨_, hseq, hprev, hlost⟩ := incomingCb_producing st q inp hprod
        rw [h0] at hseq hprev hlost
        have h1' : (incomingCb st q inp).state.streamSeq < U32 := by
          rw [hseq]
          exact Nat.mod_lt _ (by norm_num [U32])
        have h2' : (incomingCb st q inp).state.prevHeaderSeq =
            u32sub (incomingCb st q inp).state.streamSeq 1 := by
          rw [hprev, hseq]
          decide
        have hrest := runSession_lost_of_inv rest (incomingCb st q inp).state
          (incomingCb st q inp).queue h1' h2'
        have hcnt : 1 ≤ countProducing (inp :: rest) := by
          simp [countProducing, List.filter_cons, hprod]
        show (runSession (incomingCb st q inp).state (incomingCb st q inp).queue
          rest).state.lostSeqEstimate = _
        rw [hrest, hlost]
        by_cases hz : st.prevHeaderSeq = 0
        · rw [if_neg (by rw [hz]; rintro ⟨h, _⟩; exact h rfl),
            if_neg (by rintro ⟨_, h, _⟩; exact h hz)]
        · by_cases hw : st.prevHeaderSeq + 1 = U32
          · rw [if_neg, if_neg]
            · rintro ⟨_, _, h⟩
              exact h hw
            · rintro ⟨_, h⟩
              apply h
              rw [hw, Nat.mod_self]
          · rw [if_pos, if_pos]
            · congr 1
              unfold u32sub
              rw [hU] at hp hw ⊢
              have : (st.prevHeaderSeq + 1) % 4294967296 = st.prevHeaderSeq + 1 :=
                Nat.mod_eq_of_lt (by omega)
              rw [this]
              omega
            · exact ⟨hcnt, hz, hw⟩
            · refine ⟨hz, ?_⟩
              rw [Nat.mod_eq_of_lt (by rw [hU] at hp ⊢; omega)]
              omega
      · obtain ⟨_, _, hseq, hprev, hlost⟩ := incomingCb_not_producing st q inp hprod
        have ih := runSession_lost_from_reset rest (incomingCb st q inp).state
          (incomingCb st q inp).queue (by rw [hseq]; exact h0)
          (by rw [hprev]; exact hp) (by rw [hlost]; exact hl)
        have hcnt : countProducing (inp :: rest) = countProducing rest := by
          simp [countProducing, List.filter_cons, hprod]
        show (runSession (incomingCb st q inp).state (incomingCb st q inp).queue
          rest).state.lostSeqEstimate = _
        rw [ih, hprev, hlost, hcnt]

/-! ## Helper lemmas: the pacing generator -/

theorem sendDataTick_cases (st : PacingState) (now : Nat) (env : TickEnv) :
    (sendDataTick st now env).emitted = false ∨
    (sendDataTick st now env).state.lastFrameTime = now % U64 := by
  unfold sendDataTick
  by_cases c1 : env.code.isUp <;>
    by_cases c2 : st.lastFrameTime = 0 <;>
    by_cases c3 : u64sub now st.lastFrameTime < PCM_BLOCK_DURATION_US <;>
    by_cases c4 : 3 < st.consecutiveFailures ∧ (st.sendCounter + 1) % 2 = 0 <;>
    by_cases c5 : env.allocOk <;>
    by_cases c6 : env.rbOk <;>
    simp [c1, c2, c3, c4, c5, c6]

theorem sendDataTick_emitted_lastFrameTime (st : PacingState) (now : Nat) (env : TickEnv)
    (h : (sendDataTick st now env).emitted = true) :
    (sendDataTick st now env).state.lastFrameTime = now % U64 := by
  rcases sendDataTick_cases st now env with hf | hl
  · rw [h] at hf
    exact absurd hf (by simp)
  · exact hl

theorem sendDataTick_gate_skip (st : PacingState) (now : Nat) (env : TickEnv)
    (h1 : st.lastFrameTime ≠ 0)
    (h2 : u64sub now st.lastFrameTime < PCM_BLOCK_DURATION_US) :
    (sendDataTick st now env).emitted = false := by
  unfold sendDataTick
  by_cases c1 : env.code.isUp <;> simp [c1, h1, h2]

theorem runTicks_length :
    ∀ (envs : List TickEnv) (st : PacingState) (t : Nat),
      (runTicks st t envs).2.length = envs.length
  | [], _, _ => rfl
  | e :: es, st, t => by
      simp [runTicks, runTicks_length es]

theorem runTicks_chain :
    ∀ (envs : List TickEnv) (st : PacingState) (t : Nat),
      1 ≤ t → t + PCM_GENERATOR_TICK_US * envs.length < U64 →
      List.Chain' (fun a b => ¬(a = true ∧ b = true)) (runTicks st t envs).2
  | [], _, _, _, _ => by simp [runTicks]
  | env :: rest, st, t, h1, h2 => by
      have hTick : PCM_GENERATOR_TICK_US = 4000 := rfl
      have hU : U64 = 18446744073709551616 := rfl
      rw [hTick, hU] at h2
      have hlen : (env :: rest).length = rest.length + 1 := rfl
      rw [hlen] at h2
      have ih := runTicks_chain rest (sendDataTick st t env).state
        (t + PCM_GENERATOR_TICK_US) (by omega)
        (by rw [hTick, hU]; omega)
      show List.Chain' _ ((sendDataTick st t env).emitted ::
        (runTicks (sendDataTick st t env).state (t + PCM_GENERATOR_TICK_US) rest).2)
      refine List.chain'_cons'.mpr ⟨?_, ih⟩
      intro b hb
      rintro ⟨hemit, hbtrue⟩
      cases rest with
      | nil => simp [runTicks] at hb
      | cons e es =>
          have hhead :
              (runTicks (sendDataTick st t env).state (t + PCM_GENERATOR_TICK_US)
                (e :: es)).2.head? =
              some (sendDataTick (sendDataTick st t env).state
                (t + PCM_GENERATOR_TICK_US) e).emitted := rfl
          rw [hhead] at hb
          have hbeq := Option.mem_some_iff.mp hb
          have hlast : (sendDataTick st t env).state.lastFrameTime = t % U64 :=
            sendDataTick_emitted_lastFrameTime st t env hemit
          have htlt : t < U64 := by rw [hU]; omega
          have hmod : t % U64 = t := Nat.mod_eq_of_lt htlt
          have hskip : (sendDataTick (sendDataTick st t env).state
              (t + PCM_GENERATOR_TICK_US) e).emitted = false := by
            apply sendDataTick_gate_skip
            · rw [hlast, hmod]
              omega
            · rw [hlast, hmod, u64sub_eq_of_le (by rw [hTick, hU]; omega) (by omega)]
              rw [hTick]
              norm_num [PCM_BLOCK_DURATION_US]
          rw [← hbeq, hskip] at hbtrue
          exact Bool.false_ne_true hbtrue

theorem chain_count_true_le :
    ∀ (l : List Bool), List.Chain' (fun a b => ¬(a = true ∧ b = true)) l →
      l.count true ≤ (l.length + 1) / 2
  | [], _ => by simp
  | [a], _ => by cases a <;> simp
  | a :: b :: tl, h => by
      obtain ⟨hab, hbt⟩ := List.chain'_cons.mp h
      cases a with
      | false =>
          have ih := chain_count_true_le (b :: tl) hbt
          simp only [List.count_cons, List.length_cons] at *
          norm_num at *
          omega
      | true =>
          have hb : b = false := by
            cases b
            · rfl
            · exact absurd ⟨rfl, rfl⟩ hab
          subst hb
          have ih := chain_count_true_le tl hbt.tail
          simp only [List.count_cons, List.length_cons] at *
          norm_num at *
          omega

/-- C5.  The outbound pacing generator with its 4 ms tick: emissions only
pass the 7.5 ms gate (`PCM_BLOCK_DURATION_US`, used for both codecs, hence
at least the claimed per-codec frame durations of 7.5 ms narrowband and
3.75 ms wideband), so any two emissions within a tick run are at least one
frame duration — and hence at least two ticks — apart, and over any 100
consecutive ticks (from an arbitrary task state, with arbitrary
allocation/ring-buffer outcomes) at most 53 = floor(100·4/7.5) silence
frames are emitted, never one per tick. -/
theorem claim_C5 :
    ∀ (st : PacingState) (t : Nat) (envs : List TickEnv),
      1 ≤ t → t + PCM_GENERATOR_TICK_US * envs.length < U64 →
      (∀ i j, i < j →
          (runTicks st t envs).2[i]? = some true →
          (runTicks st t envs).2[j]? = some true →
          PCM_BLOCK_DURATION_US ≤ PCM_GENERATOR_TICK_US * (j - i)) ∧
      (envs.length = 100 →
        (runTicks st t envs).2.count true ≤ 53 ∧ (53 : Nat) < 100) := by
  intro st t envs h1 h2
  have hchain := runTicks_chain envs st t h1 h2
  constructor
  · intro i j hij hi hj
    by_cases hadj : j = i + 1
    · exfalso
      subst hadj
      obtain ⟨hleni, hgi⟩ := List.getElem?_eq_some.mp hi
      obtain ⟨hlenj, hgj⟩ := List.getElem?_eq_some.mp hj
      exact List.chain'_iff_get.mp hchain i (by omega) ⟨hgi, hgj⟩
    · have hT : PCM_GENERATOR_TICK_US = 4000 := rfl
      have hB : PCM_BLOCK_DURATION_US = 7500 := rfl
      rw [hT, hB]
      omega
  · intro hlen
    have hcnt := chain_count_true_le _ hchain
    rw [runTicks_length, hlen] at hcnt
    norm_num at hcnt
    exact ⟨by omega, by norm_num⟩

/-- C5 witness: 100 nominal ticks from the fresh pacing state. -/
theorem claim_C5_witness :
    (runTicks initPacingState 1 (List.replicate 100 ({} : TickEnv))).2.count true ≤ 53 ∧
    (53 : Nat) < 100 :=
  (claim_C5 initPacingState 1 (List.replicate 100 {}) (by norm_num)
    (by norm_num [PCM_GENERATOR_TICK_US, U64, List.length_replicate])).2
    (by simp)

/-! ## Helper lemmas: orchestrator and signal level monitor -/

theorem monitorStep_request_false (st : MonitorState) (h : ¬ st.attempts < 3) :
    (monitorStep st false).2 = false ∧ (monitorStep st false).1.attempts = st.attempts := by
  simp [monitorStep, h]

theorem runMonitor_no_retry_after_budget :
    ∀ (bs : List Bool) (st : MonitorState), 3 ≤ st.attempts → (∀ b ∈ bs, b = false) →
      (runMonitor st bs).2.count true = 0 ∧ (runMonitor st bs).1.attempts = st.attempts
  | [], _, _, _ => ⟨rfl, rfl⟩
  | b :: rest, st, h3, hall => by
      have hb : b = false := hall b (List.mem_cons_self b rest)
      subst hb
      have hna : ¬ st.attempts < 3 := by omega
      obtain ⟨hflag, hatt⟩ := monitorStep_request_false st hna
      have ih := runMonitor_no_retry_after_budget rest (monitorStep st false).1
        (by rw [hatt]; exact h3) (fun x hx => hall x (List.mem_cons_of_mem _ hx))
      simp only [runMonitor]
      refine ⟨?_, by rw [ih.2, hatt]⟩
      simp [List.count_cons, hflag, ih.1]

theorem tdiv_bounds (sum : Int) (n : Nat) (hn : n ≠ 0)
    (hlo : -32768 * (n : Int) ≤ sum) (hhi : sum ≤ 32767 * (n : Int)) :
    -32768 ≤ Int.tdiv sum n ∧ Int.tdiv sum n ≤ 32767 := by
  have hnpos : 0 < n := Nat.pos_of_ne_zero hn
  have habs : (Int.tdiv sum ((n : Nat) : Int)).natAbs = sum.natAbs / n := by
    have h := Int.natAbs_tdiv sum ((n : Nat) : Int)
    rw [Int.natAbs_ofNat] at h
    exact h
  have hsumabs : sum.natAbs ≤ 32768 * n := by
    rcases le_or_lt 0 sum with h | h <;> omega
  have hq : sum.natAbs / n ≤ 32768 := by
    calc sum.natAbs / n ≤ 32768 * n / n := Nat.div_le_div_right hsumabs
    _ = 32768 := Nat.mul_div_cancel 32768 hnpos
  have habs_le : (Int.tdiv sum n).natAbs ≤ 32768 := by
    rw [habs]
    exact hq
  constructor
  · omega
  · by_contra hgt
    push_neg at hgt
    have h32768 : Int.tdiv sum n = 32768 := by omega
    have hdiveq : sum.natAbs / n = 32768 := by
      rw [← habs, h32768]
      rfl
    have hge : 32768 * n ≤ sum.natAbs :=
      (Nat.le_div_iff_mul_le hnpos).mp (le_of_eq hdiveq.symm) |>.trans_eq rfl
    have hpos : 0 < sum := by
      by_contra hns
      push_neg at hns
      have hneg : Int.tdiv sum n ≤ 0 := by
        have h1 : Int.tdiv (-sum) n = -(Int.tdiv sum n) := Int.neg_tdiv sum n
        have h2 : 0 ≤ Int.tdiv (-sum) n := Int.tdiv_nonneg (by omega) (by omega)
        omega
      omega
    omega

theorem cAbs16_range (s : Int) : -32768 ≤ cAbs16 s ∧ cAbs16 s ≤ 32767 := by
  unfold cAbs16 toInt16
  omega

theorem micFold_bounds :
    ∀ (frame : List Int) (st : MicState),
      -32768 * (st.samples : Int) ≤ st.sum → st.sum ≤ 32767 * (st.samples : Int) →
      -32768 * ((frame.foldl micIngestSample st).samples : Int) ≤
          (frame.foldl micIngestSample st).sum ∧
        (frame.foldl micIngestSample st).sum ≤
          32767 * ((frame.foldl micIngestSample st).samples : Int)
  | [], st, hlo, hhi => ⟨hlo, hhi⟩
  | raw :: rest, st, hlo, hhi => by
      obtain ⟨habs1, habs2⟩ := cAbs16_range (toInt16 raw)
      refine micFold_bounds rest (micIngestSample st raw) ?_ ?_ <;>
        simp only [micIngestSample] <;> push_cast <;> nlinarith

set_option maxRecDepth 20000 in
/-- C6.  The orchestrator monitor loop: a direct audio-connect request is
issued in an iteration exactly when the sampled link state is Disconnected,
the poll counter is a multiple of 15 (≈7.5 s at the 500 ms poll period),
and the attempt budget is below 3; each request increments the budget; the
budget resets to 0 on the transition into Connected; starting from the
fresh task state, 31 consecutive Disconnected polls issue exactly the 3
requests at poll counters 0, 15, 30, ending with `attempts = 3`; and from
any state whose budget is exhausted, no further request is ever issued
while the link stays Disconnected (an external retry command restarts the
task and thereby its locals). -/
theorem claim_C6 :
    (∀ (st : MonitorState) (audio : Bool),
        ((monitorStep st audio).2 = true ↔
          audio = false ∧ st.counter % 15 = 0 ∧ st.attempts < 3)) ∧
    (∀ (st : MonitorState) (audio : Bool), (monitorStep st audio).2 = true →
        (monitorStep st audio).1.attempts = st.attempts + 1) ∧
    (∀ st : MonitorState, st.wasConnected = false →
        (monitorStep st true).1.attempts = 0) ∧
    ((runMonitor initMonitorState (List.replicate 31 false)).1.attempts = 3 ∧
     (runMonitor initMonitorState (List.replicate 31 false)).2 =
       (List.range 31).map (fun i => i % 15 == 0)) ∧
    (∀ (st : MonitorState) (bs : List Bool), 3 ≤ st.attempts → (∀ b ∈ bs, b = false) →
        (runMonitor st bs).2.count true = 0 ∧
        (runMonitor st bs).1.attempts = st.attempts) := by
  refine ⟨?_, ?_, ?_, ⟨by decide, by decide⟩,
    fun st bs h3 hall => runMonitor_no_retry_after_budget bs st h3 hall⟩
  · intro st audio
    cases audio <;> simp [monitorStep] <;> split_ifs <;> simp_all
  · intro st audio h
    cases audio <;> simp [monitorStep] at h ⊢ <;> split_ifs at h ⊢ <;> simp_all
  · intro st h
    simp [monitorStep, h]

/-- C6 witness: an exhausted budget issues no request on further
disconnected polls. -/
theorem claim_C6_witness :
    (runMonitor { counter := 31, attempts := 3, wasConnected := false, stable := 0 }
      [false, false, false]).2.count true = 0 :=
  (claim_C6.2.2.2.2 { counter := 31, attempts := 3, wasConnected := false, stable := 0 }
    [false, false, false] (by norm_num) (by simp)).1

/-- C7.  The signal level reporter `mic_level_report_timer_cb`: with a zero
sample count it is a no-op — no report, no state change, and the division
is never reached; otherwise (while monitoring) it emits one report whose
average is the truncating `sum / count`, and resets all three accumulators
to zero.  For every state reachable by ingestion the narrowing of the
average to `int16_t` is the identity, so the reported average is exactly
`sum / count`; ingestion preserves those bounds.  The decibel clamp bounds
the reported level below by −60 dB and is the identity above the floor. -/
theorem claim_C7 :
    (∀ st : MicState, st.samples = 0 → micLevelReportTimerCb st = (st, none)) ∧
    (∀ st : MicState, st.monitoring = true → st.samples ≠ 0 →
        micLevelReportTimerCb st =
          ({ st with sum := 0, samples := 0, maxLevel := 0 },
           some { average := toInt16 (Int.tdiv st.sum st.samples)
                  maxLevel := st.maxLevel
                  samples := st.samples })) ∧
    (∀ st : MicState, st.samples ≠ 0 →
        -32768 * (st.samples : Int) ≤ st.sum → st.sum ≤ 32767 * (st.samples : Int) →
        toInt16 (Int.tdiv st.sum st.samples) = Int.tdiv st.sum st.samples) ∧
    (∀ (frame : List Int) (st : MicState),
        -32768 * (st.samples : Int) ≤ st.sum → st.sum ≤ 32767 * (st.samples : Int) →
        -32768 * ((analyzeMicLevel st frame).samples : Int) ≤ (analyzeMicLevel st frame).sum ∧
        (analyzeMicLevel st frame).sum ≤ 32767 * ((analyzeMicLevel st frame).samples : Int)) ∧
    (∀ x : ℚ, -60 ≤ clampDbFloor x ∧ (-60 ≤ x → clampDbFloor x = x)) := by
  refine ⟨?_, ?_, ?_, ?_, ?_⟩
  · intro st h
    simp [micLevelReportTimerCb, h]
  · intro st h1 h2
    simp [micLevelReportTimerCb, h1, h2]
  · intro st h hlo hhi
    obtain ⟨hb1, hb2⟩ := tdiv_bounds st.sum st.samples h hlo hhi
    unfold toInt16
    omega
  · intro frame st hlo hhi
    unfold analyzeMicLevel
    split
    · exact ⟨hlo, hhi⟩
    · exact micFold_bounds frame st hlo hhi
  · intro x
    constructor
    · unfold clampDbFloor
      split_ifs <;> linarith
    · intro h
      unfold clampDbFloor
      rw [if_neg (not_lt.mpr h)]

/-- C7 witness: the reporter evaluated at a concrete accumulated window. -/
theorem claim_C7_witness :
    micLevelReportTimerCb
        { monitoring := true, sum := 10, samples := 3, maxLevel := 5, timerRunning := true } =
      ({ monitoring := true, sum := 0, samples := 0, maxLevel := 0, timerRunning := true },
       some { average := 3, maxLevel := 5, samples := 3 }) := by
  rw [claim_C7.2.1 _ rfl (by decide)]
  decide

/-! ## Helper lemmas: the network transport task -/

theorem connectToServer_cases (env : ConnectEnv) (c : StreamConfig) :
    connectToServer env c = (true, [handshakeHeader c]) ∨
    connectToServer env c = (false, []) := by
  unfold connectToServer
  split_ifs <;> simp

theorem streamTaskIter_not_running (c : StreamConfig) (st : StreamState) (env : TaskEnv)
    (h : st.isRunning = false) :
    streamTaskIter c st env = (st, []) := by
  simp [streamTaskIter, h]

theorem streamTaskIter_connect_fail (c : StreamConfig) (st : StreamState) (env : TaskEnv)
    (hr : st.isRunning = true) (hc : st.isConnected = false)
    (hf : (connectToServer env.conn c).1 = false) :
    streamTaskIter c st env = (st, [.delayMs 5000]) := by
  rcases connectToServer_cases env.conn c with hcs | hcs
  · rw [hcs] at hf
    exact absurd hf (by simp)
  · simp [streamTaskIter, hr, hc, hcs]

theorem streamTaskIter_connect_success (c : StreamConfig) (st : StreamState) (env : TaskEnv)
    (hr : st.isRunning = true) (hc : st.isConnected = false)
    (hs : (connectToServer env.conn c).1 = true) :
    (streamTaskIter c st env).2.head? = some (.handshake (handshakeHeader c)) ∧
    (streamTaskIter c st env).2.countP (fun e => isHandshakeEvent e) = 1 := by
  rcases connectToServer_cases env.conn c with hcs | hcs
  · cases hq : st.queue <;> cases hp : env.popOk <;> cases hsend : env.sendOk <;>
      simp [streamTaskIter, hr, hc, hcs, hq, hp, hsend, isHandshakeEvent]
  · rw [hcs] at hs
    exact absurd hs (by simp)

theorem streamTaskIter_connected_no_handshake (c : StreamConfig) (st : StreamState)
    (env : TaskEnv) (h : st.isConnected = true) :
    ∀ s, TaskEvent.handshake s ∉ (streamTaskIter c st env).2 := by
  intro s
  cases hr : st.isRunning <;> cases hq : st.queue <;> cases hp : env.popOk <;>
    cases hsend : env.sendOk <;> simp [streamTaskIter, hr, h, hq, hp, hsend]

theorem streamTaskIter_connected_transition (c : StreamConfig) (st : StreamState)
    (env : TaskEnv) (hc : st.isConnected = false)
    (h : (streamTaskIter c st env).1.isConnected = true) :
    env.conn.headerSendOk = true := by
  rcases Bool.eq_false_or_eq_true st.isRunning with hr | hr
  swap
  · rw [streamTaskIter_not_running c st env hr] at h
    rw [hc] at h
    exact absurd h (by simp)
  rcases connectToServer_cases env.conn c with hcs | hcs
  · unfold connectToServer at hcs
    split_ifs at hcs with h1 h2 h3 h4
    · exact absurd hcs (by simp)
    · exact absurd hcs (by simp)
    · exact absurd hcs (by simp)
    · exact absurd hcs (by simp)
    · simpa using h4
  · rw [streamTaskIter_connect_fail c st env hr hc (by rw [hcs])] at h
    rw [hc] at h
    exact absurd h (by simp)

theorem streamTaskIter_success_head :
    ∀ (c : StreamConfig) (st : StreamState) (env : TaskEnv),
      st.isRunning = true → st.isConnected = false →
      connectToServer env.conn c = (true, [handshakeHeader c]) →
      ∃ tl, (streamTaskIter c st env).2 =
        TaskEvent.handshake (handshakeHeader c) :: tl := by
  intro c st env hr hc hcs
  cases hq : st.queue <;> cases hp : env.popOk <;> cases hsend : env.sendOk <;>
    simp [streamTaskIter, hr, hc, hcs, hq, hp, hsend]

theorem runStreamTask_noPacketBefore :
    ∀ (envs : List TaskEnv) (c : StreamConfig) (st : StreamState),
      st.isConnected = false →
      noPacketBeforeHandshake (runStreamTask c st envs).2 = true
  | [], _, _, _ => rfl
  | env :: rest, c, st, h => by
      simp only [runStreamTask]
      rcases Bool.eq_false_or_eq_true st.isRunning with hr | hr
      · rcases connectToServer_cases env.conn c with hcs | hcs
        · obtain ⟨tl, htl⟩ := streamTaskIter_success_head c st env hr h hcs
          rw [htl]
          rfl
        · rw [streamTaskIter_connect_fail c st env hr h (by rw [hcs])]
          have ih := runStreamTask_noPacketBefore rest c st h
          simpa [noPacketBeforeHandshake] using ih
      · rw [streamTaskIter_not_running c st env hr]
        have ih := runStreamTask_noPacketBefore rest c st h
        simpa using ih

theorem noPacketBefore_split :
    ∀ (pre : List TaskEvent) (p : StreamPacket) (post : List TaskEvent),
      noPacketBeforeHandshake (pre ++ TaskEvent.packetSent p :: post) = true →
      ∃ s, TaskEvent.handshake s ∈ pre
  | [], p, post, h => by
      simp [noPacketBeforeHandshake] at h
  | e :: pre', p, post, h => by
      cases e with
      | handshake s => exact ⟨s, List.mem_cons_self _ _⟩
      | packetSent q => simp [noPacketBeforeHandshake] at h
      | delayMs n =>
          obtain ⟨s, hs⟩ := noPacketBefore_split pre' p post
            (by simpa [noPacketBeforeHandshake] using h)
          exact ⟨s, List.mem_cons_of_mem _ hs⟩
      | popTimeout =>
          obtain ⟨s, hs⟩ := noPacketBefore_split pre' p post
            (by simpa [noPacketBeforeHandshake] using h)
          exact ⟨s, List.mem_cons_of_mem _ hs⟩

/-- C8.  The network transport task: the handshake block built by
`connect_to_server` matches the specified grammar exactly (with the codec
label `MSBC` when the configured sample rate is 16000 and `CVSD`
otherwise); on any connect failure the state stays Disconnected and the
iteration performs the fixed 5 s backoff; a successful connect emits the
handshake as its first observable event and exactly once; no handshake is
ever sent on an already-connected iteration; the state can only become
Connected when the handshake send succeeded; and in every run from a
disconnected state, any framed packet sent over the socket is preceded by
a handshake in the event trace. -/
theorem claim_C8 :
    (∀ c : StreamConfig,
        specHandshakeBlock c.sampleRate c.channels c.bitsPerSample (handshakeHeader c)) ∧
    (∀ (c : StreamConfig) (st : StreamState) (env : TaskEnv),
        st.isRunning = true → st.isConnected = false →
        (connectToServer env.conn c).1 = false →
        streamTaskIter c st env = (st, [.delayMs 5000])) ∧
    (∀ (c : StreamConfig) (st : StreamState) (env : TaskEnv),
        st.isRunning = true → st.isConnected = false →
        (connectToServer env.conn c).1 = true →
        (streamTaskIter c st env).2.head? = some (.handshake (handshakeHeader c)) ∧
        (streamTaskIter c st env).2.countP (fun e => isHandshakeEvent e) = 1) ∧
    (∀ (c : StreamConfig) (st : StreamState) (env : TaskEnv), st.isConnected = true →
        ∀ s, TaskEvent.handshake s ∉ (streamTaskIter c st env).2) ∧
    (∀ (c : StreamConfig) (st : StreamState) (env : TaskEnv), st.isConnected = false →
        (streamTaskIter c st env).1.isConnected = true →
        env.conn.headerSendOk = true) ∧
    (∀ (c : StreamConfig) (st : StreamState) (envs : List TaskEnv),
        st.isConnected = false →
        ∀ (pre : List TaskEvent) (p : StreamPacket) (post : List TaskEvent),
          (runStreamTask c st envs).2 = pre ++ TaskEvent.packetSent p :: post →
          ∃ s, TaskEvent.handshake s ∈ pre) := by
  refine ⟨?_, streamTaskIter_connect_fail, streamTaskIter_connect_success,
    streamTaskIter_connected_no_handshake, streamTaskIter_connected_transition, ?_⟩
  · intro c
    by_cases h : c.sampleRate = 16000
    · exact ⟨"MSBC", Or.inr rfl, by simp [handshakeHeader, h]⟩
    · exact ⟨"CVSD", Or.inl rfl, by simp [handshakeHeader, h]⟩
  · intro c st envs hc pre p post heq
    have hnp := runStreamTask_noPacketBefore envs c st hc
    rw [heq] at hnp
    exact noPacketBefore_split pre p post hnp

/-- C8 witness: a run that connects and then sends one packet has its
handshake before the packet. -/
theorem claim_C8_witness :
    ∃ s, TaskEvent.handshake s ∈
      [TaskEvent.handshake (handshakeHeader
        { serverIp := "192.168.1.10", serverPort := 8888, bufferSize := 4096,
          sampleRate := 8000, channels := 1, bitsPerSample := 16 })] :=
  claim_C8.2.2.2.2.2
    { serverIp := "192.168.1.10", serverPort := 8888, bufferSize := 4096,
      sampleRate := 8000, channels := 1, bitsPerSample := 16 }
    { isRunning := true, isConnected := false,
      queue := [{ header := { magic := 0, seq := 0, timestampUs := 0,
                              payloadLen := 2, codec := 1 }, payload := [0] }],
      taskActive := true }
    [{}] rfl
    [TaskEvent.handshake (handshakeHeader
      { serverIp := "192.168.1.10", serverPort := 8888, bufferSize := 4096,
        sampleRate := 8000, channels := 1, bitsPerSample := 16 })]
    { header := { magic := 0, seq := 0, timestampUs := 0, payloadLen := 2, codec := 1 },
      payload := [0] }
    [] (by decide)

/-- C9.  Stop on an already-stopped component is an idempotent no-op with a
defined result: `audio_streaming_stop` on a non-running module returns
`ESP_OK` and changes nothing, and a second stop is always such a no-op;
`stop_microphone_level_monitoring` on an inactive monitor returns the
defined invalid-state code `ESP_ERR_INVALID_STATE` and changes nothing,
and a second stop likewise; `bt_app_stop_mic_level_monitoring` on an
inactive monitor changes nothing and is idempotent. -/
theorem claim_C9 :
    (∀ st : StreamState, st.isRunning = false → audioStreamingStop st = (st, .ok)) ∧
    (∀ st : StreamState,
        audioStreamingStop (audioStreamingStop st).1 = ((audioStreamingStop st).1, .ok)) ∧
    (∀ st : CallSimState, st.micMonitoringActive = false →
        stopMicrophoneLevelMonitoring st = (st, .errInvalidState)) ∧
    (∀ st : CallSimState,
        stopMicrophoneLevelMonitoring (stopMicrophoneLevelMonitoring st).1 =
          ((stopMicrophoneLevelMonitoring st).1, .errInvalidState)) ∧
    (∀ st : MicState, st.monitoring = false → btAppStopMicLevelMonitoring st = st) ∧
    (∀ st : MicState,
        btAppStopMicLevelMonitoring (btAppStopMicLevelMonitoring st) =
          btAppStopMicLevelMonitoring st) := by
  refine ⟨?_, ?_, ?_, ?_, ?_, ?_⟩
  · intro st h
    simp [audioStreamingStop, h]
  · intro st
    by_cases h : st.isRunning <;> simp [audioStreamingStop, h]
  · intro st h
    simp [stopMicrophoneLevelMonitoring, h]
  · intro st
    by_cases h : st.micMonitoringActive <;> simp [stopMicrophoneLevelMonitoring, h]
  · intro st h
    simp [btAppStopMicLevelMonitoring, h]
  · intro st
    by_cases h : st.monitoring <;> simp [btAppStopMicLevelMonitoring, h]

/-- C9 witness: the three stop operations evaluated on already-stopped
concrete states. -/
theorem claim_C9_witness :
    audioStreamingStop
        { isRunning := false, isConnected := false, queue := [], taskActive := false } =
      ({ isRunning := false, isConnected := false, queue := [], taskActive := false }, .ok) ∧
    stopMicrophoneLevelMonitoring
        { callActive := false, micMonitoringActive := false, monitorTaskActive := false } =
      ({ callActive := false, micMonitoringActive := false, monitorTaskActive := false },
       .errInvalidState) ∧
    btAppStopMicLevelMonitoring initMicState = initMicState :=
  ⟨claim_C9.1 _ rfl, claim_C9.2.2.1 _ rfl, claim_C9.2.2.2.2.1 initMicState rfl⟩

/-! ## Claims C2, C4 and C10: packetizer, sequencer, gap detector -/

/-- C2 counterexample.  The claim describes a gap detector whose cumulative
lost counter is never reset except at session start and which, per session,
starts with gap detection disabled; in a session whose emitted sequence
numbers are the consecutive `0, 1, 2, …` it therefore predicts a counter of
0.  The code instead keeps `s_prev_header_seq` across the session reset
(`bt_app_send_data_shut_down` resets only `s_stream_seq`), so the first
frame of the second session (seq 0, stored previous seq 2) adds
`(0 - 3) mod 2^32 = 4294967293` to the counter. -/
theorem claim_C2_counterexample :
    gapFirstSession.state.lostSeqEstimate = 0 ∧
    gapSecondSession.state.lostSeqEstimate = 4294967293 ∧
    (4294967293 : Nat) ≠ 0 := by
  refine ⟨by decide, by decide, by decide⟩

/-- C2 (amended).  The gap detector of `bt_app_hf_incoming_cb`:

* the session reset `bt_app_send_data_shut_down` leaves the cumulative
  lost counter and the stored previous sequence number untouched — the
  counter is never reset after boot, not even at session start;
* within any run that starts at the boot state the counter stays 0 (the
  emitted sequence numbers are consecutive, so no gap is ever recorded in
  a single uninterrupted producer lifetime from boot);
* for a session started by a reset (`s_stream_seq = 0`, stored previous
  seq `p`): gap detection is skipped whenever `p = 0` (the `!= 0` guard
  conflates "no prior frame" with "prior seq was 0"), and otherwise the
  first produced frame of the session adds `(0 - p - 1) mod 2^32` to the
  counter, after which the counter stays constant for the rest of the
  session. -/
theorem claim_C2 :
    (∀ st : HfState,
        (sendDataShutDown st).lostSeqEstimate = st.lostSeqEstimate ∧
        (sendDataShutDown st).prevHeaderSeq = st.prevHeaderSeq) ∧
    (∀ (q : List StreamPacket) (ins : List CbInput),
        (runSession initHfState q ins).state.lostSeqEstimate = 0) ∧
    (∀ (st : HfState) (q : List StreamPacket) (ins : List CbInput),
        st.streamSeq = 0 → st.prevHeaderSeq < U32 → st.lostSeqEstimate < U32 →
        (runSession st q ins).state.lostSeqEstimate =
          (if 1 ≤ countProducing ins ∧ st.prevHeaderSeq ≠ 0 ∧ st.prevHeaderSeq + 1 ≠ U32 then
            (st.lostSeqEstimate + (U32 - (st.prevHeaderSeq + 1))) % U32
          else st.lostSeqEstimate)) := by
  refine ⟨fun st => ⟨rfl, rfl⟩, ?_, fun st q ins => runSession_lost_from_reset ins st q⟩
  intro q ins
  have h := runSession_lost_from_reset ins initHfState q rfl
    (by norm_num [initHfState, U32]) (by norm_num [initHfState, U32])
  simpa [initHfState] using h

/-- C2 witness: the amended cross-session formula evaluated on the concrete
two-session trace. -/
theorem claim_C2_witness :
    (runSession (sendDataShutDown gapFirstSession.state) gapFirstSession.queue
        [cbFrameAt 100]).state.lostSeqEstimate = 4294967293 := by
  rw [claim_C2.2.2 (sendDataShutDown gapFirstSession.state) gapFirstSession.queue
    [cbFrameAt 100] (by decide) (by decide) (by decide)]
  decide

/-- C4.  The sequencer: after a session reset (`bt_app_send_data_shut_down`)
the sequence counter is 0, and the framed packets produced by the following
producer session carry the sequence numbers `0, 1, 2, …` reduced modulo
`2^32`; in particular, as long as the session produces at most `2^32`
packets, the sequence numbers are exactly `0, 1, 2, …` — strictly
increasing by exactly 1 per produced packet and restarting at 0 for the
session. -/
theorem claim_C4 :
    ∀ (st : HfState) (q : List StreamPacket) (ins : List CbInput),
      (sendDataShutDown st).streamSeq = 0 ∧
      (runSession (sendDataShutDown st) q ins).headers.map StreamHeader.seq =
        (List.range (countProducing ins)).map (· % U32) ∧
      (countProducing ins ≤ U32 →
        (runSession (sendDataShutDown st) q ins).headers.map StreamHeader.seq =
          List.range (countProducing ins)) := by
  intro st q ins
  have hmain := runSession_headers_seq ins (sendDataShutDown st) q
    (by norm_num [sendDataShutDown, U32])
  have hzero : (sendDataShutDown st).streamSeq = 0 := rfl
  rw [hzero] at hmain
  simp only [Nat.zero_add] at hmain
  refine ⟨hzero, hmain, fun hle => ?_⟩
  rw [hmain]
  have : ∀ i ∈ List.range (countProducing ins), i % U32 = i := by
    intro i hi
    exact Nat.mod_eq_of_lt (Nat.lt_of_lt_of_le (List.mem_range.mp hi) hle)
  rw [List.map_congr_left this, List.map_id']

/-- C4 witness: a two-frame session after a reset carries seqs `[0, 1]`. -/
theorem claim_C4_witness :
    countProducing [cbFrameAt 1, cbFrameAt 2] ≤ U32 ∧
    (runSession (sendDataShutDown initHfState) [] [cbFrameAt 1, cbFrameAt 2]).headers.map
        StreamHeader.seq = List.range (countProducing [cbFrameAt 1, cbFrameAt 2]) :=
  ⟨by decide,
   (claim_C4 initHfState [] [cbFrameAt 1, cbFrameAt 2]).2.2 (by decide)⟩

/-- C10.  When the streaming transport is not connected at the moment a
valid raw frame arrives, `bt_app_hf_incoming_cb` returns right after the
signal-level analysis: the diagnostics counters and the monitor state are
updated and the local `failed_sends` counter is incremented, but the
sequence counter, the gap-detector state, and the transmit queue are left
unchanged and no packet is built — the dropped frame is invisible to
sequence-based loss accounting. -/
theorem claim_C10 :
    ∀ (st : HfState) (q : List StreamPacket) (inp : CbInput),
      inp.streamingConnected = false → inp.bufNull = false → inp.frame ≠ [] →
      incomingCb st q inp =
        { state :=
            { streamSeq := st.streamSeq
              prevHeaderSeq := st.prevHeaderSeq
              lostSeqEstimate := st.lostSeqEstimate
              incomingCbCounter := (st.incomingCbCounter + 1) % U32
              failedSends := (st.failedSends + 1) % U32
              firstPacketTimeUs := if st.firstPacketTimeUs = 0 then inp.now
                                   else st.firstPacketTimeUs
              dataNum := st.dataNum + 2 * inp.frame.length
              mic := analyzeMicLevel st.mic inp.frame }
          queue := q
          produced := none } := by
  intro st q inp h1 h2 h3
  have hlen : ¬ inp.frame.length = 0 := by simpa using h3
  simp [incomingCb, h1, h2, hlen]

/-- C10 witness: the not-connected drop evaluated at a concrete state. -/
theorem claim_C10_witness :
    incomingCb initHfState [] { now := 5, frame := [7], streamingConnected := false } =
      { state :=
          { streamSeq := 0, prevHeaderSeq := 0, lostSeqEstimate := 0,
            incomingCbCounter := 1, failedSends := 1, firstPacketTimeUs := 5,
            dataNum := 2, mic := initMicState }
        queue := []
        produced := none } := by
  rw [claim_C10 initHfState [] { now := 5, frame := [7], streamingConnected := false }
    rfl rfl (by decide)]
  decide

/-- C3.  For every sequence of push operations (with arbitrary per-push
environment outcomes) into the initially empty transmit queue, the queue
never holds more than `QUEUE_CAPACITY = 50` packets at any intermediate
point, and the final queue is a sublist of the pushed packets in push
order — eviction removes oldest entries but never reorders what remains,
and insertion order equals send order (the consumer pops the head). -/
theorem claim_C3 :
    ∀ (reqs : List (PushReq Nat)) (n : Nat),
      (runSends ([] : List Nat) (reqs.take n)).length ≤ QUEUE_CAPACITY ∧
      (runSends ([] : List Nat) reqs).Sublist (reqs.map PushReq.pkt) := by
  intro reqs n
  constructor
  · exact runSends_length_le (reqs.take n) [] (by simp)
  · simpa using runSends_sublist reqs []

end BtEsp
